import Mathlib

/-!
Verification of the XcodeConsoleWatcher core against its source.

Shallow embedding conventions:
* Go `int` fields become `Int` (or `Nat` where the source keeps them
  non-negative by construction); wall-clock times (`time.Time`) become `Int`
  instants and `time.Duration` an `Int`, with `a.Sub(b)` embedded as `a - b`.
  Calls to `time.Now()` inside a function become an explicit `now` parameter.
* Go strings are Lean `String`s; the operator-splitting code indexes bytes,
  which coincides with the character indexing used here on the ASCII data the
  program manipulates.
* Go maps used as association tables become association lists (`List (key × v)`)
  with first-match lookup, which matches Go map semantics for the operations
  the code performs (lookup, insert/replace, delete, iterate).
* Compiled regular expressions are opaque matchers `String → Bool`; the
  success of `regexp.Compile` is abstracted by a `String → Bool` validity
  oracle where a function may fail to compile its argument.
-/

namespace Xcw

/-- `internal/domain` log record (fields as referenced throughout the source;
the struct itself is exercised by `internal/domain/log_test.go`). -/
structure LogEntry where
  timestamp : Int
  level : String
  process : String
  pid : Int
  processImageUUID : String
  subsystem : String
  category : String
  message : String
deriving DecidableEq, Repr

/-- Modelled from the spec: `domain.LogLevel.Priority` is absent from `src/`
(only `internal/domain/log_test.go` exercises it). Spec §4.1: "severity
ordering helper (Debug=0 … Fault=4)"; the test adds that an unknown level has
the priority of Default (2). -/
def priority (l : String) : Nat :=
  if l = "Debug" then 0
  else if l = "Info" then 1
  else if l = "Default" then 2
  else if l = "Error" then 3
  else if l = "Fault" then 4
  else 2

/-- Go `strings.ToLower` (on the ASCII field and level names involved,
per-character lowering is all that matters). -/
def goToLower (s : String) : String :=
  String.mk (s.data.map Char.toLower)

/-- Modelled from the spec: `domain.ParseLogLevel` is absent from `src/`
(only its test is present). Spec §4.1: "a lenient parser mapping textual
names (case-insensitive) to the enum, with an unknown name mapped to Default
(never fails)". -/
def parseLogLevel (s : String) : String :=
  if goToLower s = "debug" then "Debug"
  else if goToLower s = "info" then "Info"
  else if goToLower s = "default" then "Default"
  else if goToLower s = "error" then "Error"
  else if goToLower s = "fault" then "Fault"
  else "Default"

/-- Go `strings.TrimSpace` (on the data involved only the ASCII whitespace
class matters). -/
def goTrimSpace (s : String) : String :=
  String.mk
    (((s.data.dropWhile Char.isWhitespace).reverse.dropWhile
      Char.isWhitespace).reverse)

/-! ## Session tracker (`src/unnamed/part_009`, package `session`) -/

/-- `domain.SessionSummary`. -/
structure SessionSummary where
  totalLogs : Int
  errors : Int
  faults : Int
  durationSeconds : Int
deriving DecidableEq, Repr

/-- `domain.SessionEnd` (the constant `type`/`schemaVersion` envelope fields
are omitted; they carry no information). -/
structure SessionEnd where
  session : Int
  pid : Int
  summary : SessionSummary
deriving DecidableEq, Repr

/-- `domain.SessionStart`; `timestamp` is the `time.Now()` instant the Go
constructor formats. -/
structure SessionStart where
  alert : String
  session : Int
  pid : Int
  previousPID : Int
  app : String
  simulator : String
  udid : String
  timestamp : Int
deriving DecidableEq, Repr

/-- `domain.NewSessionStart`: sets `Alert = "APP_RELAUNCHED"` and
`PreviousPID` only when the previous PID is positive. -/
def NewSessionStart (session pid previousPID : Int) (app simulator udid : String)
    (now : Int) : SessionStart :=
  if 0 < previousPID then
    { alert := "APP_RELAUNCHED"
      session := session
      pid := pid
      previousPID := previousPID
      app := app
      simulator := simulator
      udid := udid
      timestamp := now }
  else
    { alert := ""
      session := session
      pid := pid
      previousPID := 0
      app := app
      simulator := simulator
      udid := udid
      timestamp := now }

/-- `domain.NewSessionEnd`. -/
def NewSessionEnd (session pid : Int) (summary : SessionSummary) : SessionEnd :=
  { session := session, pid := pid, summary := summary }

/-- `session.SessionChange`. -/
structure SessionChange where
  endSession : Option SessionEnd
  startSession : Option SessionStart
deriving DecidableEq, Repr

/-- `session.Tracker` state (`inited` embeds the Go field `initialized`). -/
structure Tracker where
  currentSession : Int
  currentPID : Int
  sessionStart : Int
  logCount : Int
  errorCount : Int
  faultCount : Int
  app : String
  simulator : String
  udid : String
  inited : Bool
deriving DecidableEq, Repr

/-- `session.NewTracker` (zero values for everything but the identity). -/
def NewTracker (app simulator udid : String) : Tracker :=
  { currentSession := 0
    currentPID := 0
    sessionStart := 0
    logCount := 0
    errorCount := 0
    faultCount := 0
    app := app
    simulator := simulator
    udid := udid
    inited := false }

/-- `Tracker.matchesApp`: the subsystem starts with the bundle id (note: the
source compares `entry.Subsystem[:len(t.app)] == t.app`, with no dot
required after the bundle id). -/
def Tracker.matchesApp (t : Tracker) (e : LogEntry) : Bool :=
  t.app.length ≤ e.subsystem.length &&
    e.subsystem.data.take t.app.length == t.app.data

/-- `Tracker.updateCounts`. -/
def Tracker.updateCounts (t : Tracker) (e : LogEntry) : Tracker :=
  if e.level = "Error" then { t with errorCount := t.errorCount + 1 }
  else if e.level = "Fault" then { t with faultCount := t.faultCount + 1 }
  else t

/-- `Tracker.CheckEntry` (part_009 lines 246-323). `now` is the
`time.Now()` instant; `DurationSeconds` is embedded as `now - sessionStart`. -/
def Tracker.CheckEntry (t : Tracker) (e : LogEntry) (now : Int) :
    Option SessionChange × Tracker :=
  if e.subsystem ≠ t.app ∧ t.matchesApp e = false then
    -- "Still increment counts if we're tracking"
    if t.inited then
      (none, Tracker.updateCounts { t with logCount := t.logCount + 1 } e)
    else
      (none, t)
  else
    let pid := e.pid
    if t.inited = false then
      let t' := Tracker.updateCounts
        { t with
          inited := true
          currentSession := 1
          currentPID := pid
          sessionStart := now
          logCount := 1 } e
      let startEv := NewSessionStart 1 pid 0 t.app t.simulator t.udid now
      (some { endSession := none, startSession := some startEv }, t')
    else if pid ≠ t.currentPID ∧ 0 < pid then
      let previousPID := t.currentPID
      let previousSession := t.currentSession
      let summary : SessionSummary :=
        { totalLogs := t.logCount
          errors := t.errorCount
          faults := t.faultCount
          durationSeconds := now - t.sessionStart }
      let t' := Tracker.updateCounts
        { t with
          currentSession := t.currentSession + 1
          currentPID := pid
          sessionStart := now
          logCount := 1
          errorCount := 0
          faultCount := 0 } e
      let endEv := NewSessionEnd previousSession previousPID summary
      let startEv := NewSessionStart t'.currentSession pid previousPID t.app
        t.simulator t.udid now
      (some { endSession := some endEv, startSession := some startEv }, t')
    else
      (none, Tracker.updateCounts { t with logCount := t.logCount + 1 } e)

/-! ## Deduplication filter (`src/unnamed/part_008`, first file) -/

/-- `filter.dedupeEntry`. -/
structure DedupeEntryRec where
  count : Nat
  firstSeen : Int
  lastSeen : Int
deriving DecidableEq, Repr

/-- `filter.DedupeFilter` state; the Go map `seen` is an association list with
first-match lookup. -/
structure DedupeFilter where
  window : Int
  seen : List (String × DedupeEntryRec)
  lastMessage : String
  lastEmitTime : Int
deriving DecidableEq, Repr

/-- `filter.DedupeResult`. -/
structure DedupeResult where
  shouldEmit : Bool
  count : Nat
  firstSeen : Int
  lastSeen : Int
deriving DecidableEq, Repr

/-- Go map lookup `f.seen[key]`. -/
def alistLookup (l : List (String × DedupeEntryRec)) (k : String) :
    Option DedupeEntryRec :=
  match l with
  | [] => none
  | (k', v) :: rest => if k' = k then some v else alistLookup rest k

/-- Go map store `f.seen[key] = v` (replace in place, else append). -/
def alistStore (l : List (String × DedupeEntryRec)) (k : String)
    (v : DedupeEntryRec) : List (String × DedupeEntryRec) :=
  match l with
  | [] => [(k, v)]
  | (k', v') :: rest =>
    if k' = k then (k', v) :: rest else (k', v') :: alistStore rest k v

/-- `filter.NewDedupeFilter`. -/
def NewDedupeFilter (window : Int) : DedupeFilter :=
  { window := window, seen := [], lastMessage := "", lastEmitTime := 0 }

/-- `DedupeFilter.cleanOldEntries`: drop entries with `lastSeen` before
`now - window`. -/
def DedupeFilter.cleanOldEntries (seen : List (String × DedupeEntryRec))
    (cutoff : Int) : List (String × DedupeEntryRec) :=
  seen.filter (fun p => !(p.2.lastSeen < cutoff))

/-- The "Clean up old entries if using window mode" step at the top of
`Check`. -/
def DedupeFilter.preClean (f : DedupeFilter) (now : Int) : DedupeFilter :=
  if 0 < f.window then
    { f with seen := DedupeFilter.cleanOldEntries f.seen (now - f.window) }
  else f

/-- `DedupeFilter.Check` (part_008 lines 44-97). `now` is `time.Now()`. -/
def DedupeFilter.Check (f : DedupeFilter) (e : LogEntry) (now : Int) :
    DedupeResult × DedupeFilter :=
  let key := e.message
  let f0 := f.preClean now
  -- the fall-through path ("New message or different from last") shared by
  -- the miss case and the consecutive-mode deviation case
  let fresh : DedupeFilter → DedupeResult × DedupeFilter := fun g =>
    ({ shouldEmit := true, count := 1, firstSeen := now, lastSeen := now },
     { g with
       seen := alistStore g.seen key { count := 1, firstSeen := now, lastSeen := now }
       lastMessage := key
       lastEmitTime := now })
  match alistLookup f0.seen key with
  | some existing =>
    let e' : DedupeEntryRec :=
      { count := existing.count + 1, firstSeen := existing.firstSeen,
        lastSeen := now }
    let f1 := { f0 with seen := alistStore f0.seen key e' }
    if 0 < f0.window then
      ({ shouldEmit := false, count := e'.count, firstSeen := e'.firstSeen,
         lastSeen := e'.lastSeen }, f1)
    else if f0.lastMessage = key then
      ({ shouldEmit := false, count := e'.count, firstSeen := e'.firstSeen,
         lastSeen := e'.lastSeen }, f1)
    else
      fresh f1
  | none => fresh f0

/-- `DedupeFilter.GetPendingDuplicates` (part_008 lines 101-116): the entries
with `count > 1`. -/
def DedupeFilter.GetPendingDuplicates (f : DedupeFilter) :
    List (String × DedupeEntryRec) :=
  f.seen.filter (fun p => 1 < p.2.count)

/-- Iterated `Check` over one message at the given sequence of instants,
collecting the results. -/
def DedupeFilter.checkRun (f : DedupeFilter) (e : LogEntry) :
    List Int → List DedupeResult × DedupeFilter
  | [] => ([], f)
  | now :: rest =>
    let (r, f') := f.Check e now
    let (rs, f'') := f'.checkRun e rest
    (r :: rs, f'')

/-- The round-trip of the claim: `Check(L); Check(L); …` on a fresh
consecutive-mode filter (`NewDedupeFilter 0`), at instants `t :: ts`. -/
def consecutiveRun (e : LogEntry) (t : Int) (ts : List Int) :
    List DedupeResult × DedupeFilter :=
  (NewDedupeFilter 0).checkRun e (t :: ts)

/-! ## WHERE clauses (`src/unnamed/part_008`, second file) -/

/-- `filter.WhereClause`; the compiled regex of `~`/`!~` is an opaque matcher
(`none` embeds the nil pointer). -/
structure WhereClause where
  Field : String
  Operator : String
  Value : String
  regexMatch : Option (String → Bool)

/-- The result of `ParseWhereClause` without the opaque compiled regex, for
stating decidable facts about parses. -/
def WhereClause.triple (wc : WhereClause) : String × String × String :=
  (wc.Field, wc.Operator, wc.Value)

/-- First index of `sub` in `s` (`strings.Index` on the char lists; on the
ASCII operator tokens involved, Go's byte index equals this char index). -/
def findSub (sub : List Char) : List Char → Option Nat
  | [] => if sub.isEmpty then some 0 else none
  | c :: rest =>
    if sub.isPrefixOf (c :: rest) then some 0
    else (findSub sub rest).map (· + 1)

/-- `strings.Index s sub`: first occurrence or `-1`. -/
def strIndex (s sub : String) : Int :=
  match findSub sub.data s.data with
  | some n => (n : Int)
  | none => -1

/-- The operator tokens in the order the parser tries them
(part_008 line 158). -/
def whereOps : List String := ["!~", ">=", "<=", "!=", "~", "=", "^", "$"]

/-- The trimmed text left of the first occurrence of `op` in `clause`
(`strings.TrimSpace(clause[:idx])`). -/
def whereFieldAt (clause op : String) : String :=
  goTrimSpace (String.mk (clause.data.take (strIndex clause op).toNat))

/-- The trimmed text right of the first occurrence of `op` in `clause`
(`strings.TrimSpace(clause[idx+len(op):])`). -/
def whereValueAt (clause op : String) : String :=
  goTrimSpace (String.mk
    (clause.data.drop ((strIndex clause op).toNat + op.length)))

/-- The loop body of `ParseWhereClause`: try each operator in order; split at
the first whose `strings.Index` is positive. `compileOk` abstracts whether
`regexp.Compile` accepts a pattern (for `~`/`!~`), and `rx` the compiled
matcher. -/
def parseWhereLoop (compileOk : String → Bool) (rx : String → String → Bool)
    (clause : String) : List String → Except String WhereClause
  | [] =>
    .error ("no valid operator found in where clause: " ++ clause ++
      " (use =, !=, ~, !~, >=, <=, ^, $)")
  | op :: rest =>
    if 0 < strIndex clause op then
      if whereFieldAt clause op = "" ∨ whereValueAt clause op = "" then
        .error ("invalid where clause: " ++ clause)
      else if op = "~" ∨ op = "!~" then
        if compileOk (whereValueAt clause op) then
          .ok { Field := whereFieldAt clause op, Operator := op,
                Value := whereValueAt clause op,
                regexMatch := some (rx (whereValueAt clause op)) }
        else
          .error ("invalid regex in where clause: " ++ clause)
      else
        .ok { Field := whereFieldAt clause op, Operator := op,
              Value := whereValueAt clause op, regexMatch := none }
    else
      parseWhereLoop compileOk rx clause rest

/-- `filter.ParseWhereClause` (part_008 lines 156-190). -/
def ParseWhereClause (compileOk : String → Bool) (rx : String → String → Bool)
    (clause : String) : Except String WhereClause :=
  parseWhereLoop compileOk rx clause whereOps

/-- `WhereClause.getFieldValue` (part_008 lines 226-243). -/
def WhereClause.getFieldValue (wc : WhereClause) (e : LogEntry) : String :=
  if goToLower wc.Field = "level" then e.level
  else if goToLower wc.Field = "subsystem" then e.subsystem
  else if goToLower wc.Field = "category" then e.category
  else if goToLower wc.Field = "process" then e.process
  else if goToLower wc.Field = "message" then e.message
  else if goToLower wc.Field = "pid" then toString e.pid
  else ""

/-- `WhereClause.compareLevel` (part_008 lines 246-259). -/
def WhereClause.compareLevel (wc : WhereClause) (e : LogEntry)
    (greaterOrEqual : Bool) : Bool :=
  if goToLower wc.Field ≠ "level" then false
  else
    let entryPriority := priority e.level
    let targetPriority := priority (parseLogLevel wc.Value)
    if greaterOrEqual then targetPriority ≤ entryPriority
    else entryPriority ≤ targetPriority

/-- `WhereClause.Match` (part_008 lines 193-223). `strings.Contains` (the
nil-regex fallback of `~`/`!~`) is embedded via `findSub`. -/
def WhereClause.Match (wc : WhereClause) (e : LogEntry) : Bool :=
  let fieldValue := wc.getFieldValue e
  if wc.Operator = "=" then fieldValue = wc.Value
  else if wc.Operator = "!=" then fieldValue ≠ wc.Value
  else if wc.Operator = "~" then
    match wc.regexMatch with
    | some m => m fieldValue
    | none => (findSub wc.Value.data fieldValue.data).isSome
  else if wc.Operator = "!~" then
    match wc.regexMatch with
    | some m => !m fieldValue
    | none => !(findSub wc.Value.data fieldValue.data).isSome
  else if wc.Operator = "^" then wc.Value.isPrefixOf fieldValue
  else if wc.Operator = "$" then wc.Value.data.isSuffixOf fieldValue.data
  else if wc.Operator = ">=" then wc.compareLevel e true
  else if wc.Operator = "<=" then wc.compareLevel e false
  else false

/-! ## Watch-mode trigger dispatch (`src/internal/cli/watch.go`) -/

/-- A configured `pattern:command` trigger; `matches` is the compiled regex
matcher, `source` its `pattern.String()`. -/
structure TriggerSpec where
  matchesMsg : String → Bool
  source : String
  command : String

/-- The trigger-relevant watch configuration (flags `--on-error`, `--on-fault`,
`--on-pattern`, `--cooldown`). -/
structure WatchConfig where
  onError : String
  onFault : String
  triggers : List TriggerSpec
  cooldown : Int

/-- The per-trigger cooldown clocks of `WatchCmd.Run` (watch.go lines
178-181); the pattern map's missing keys are the zero time `0`, so it is
embedded as a list read with default `0`. -/
structure TriggerState where
  lastError : Int
  lastFault : Int
  lastPat : List Int
deriving DecidableEq, Repr

/-- The initial clocks (`time.Time{}` zero values, empty map). -/
def initialTriggerState : TriggerState :=
  { lastError := 0, lastFault := 0, lastPat := [] }

/-- One character's escape under `escapeJSON` (watch.go lines 291-298); the
source's five sequential `strings.ReplaceAll` calls each replace a single
character and never rescan inserted text, so they equal this per-character
substitution. -/
def escapeJSONChar (c : Char) : List Char :=
  if c = '\\' then ['\\', '\\']
  else if c = '"' then ['\\', '"']
  else if c = '\n' then ['\\', 'n']
  else if c = '\r' then ['\\', 'r']
  else if c = '\t' then ['\\', 't']
  else [c]

/-- `escapeJSON` (watch.go lines 291-298). -/
def escapeJSON (s : String) : String :=
  String.mk (s.data.flatMap escapeJSONChar)

/-- The NDJSON line `runTrigger` prints before spawning (watch.go lines
249-251). -/
def triggerLine (triggerType command message : String) : String :=
  "\x7b\"type\":\"trigger\",\"trigger\":\"" ++ triggerType ++
    "\",\"command\":\"" ++ command ++ "\",\"message\":\"" ++
    escapeJSON message ++ "\"\x7d\n"

/-- The shape shared by all three trigger checks in the watch event loop
(watch.go lines 209-231): if the trigger is configured and matched, and its
cooldown has elapsed, fire (emit the pair, advance the clock to `now`);
otherwise leave the clock alone. -/
def fireGate (matched : Prop) [Decidable matched] (pair : String × String)
    (last now cooldown : Int) : List (String × String) × Int :=
  if matched then
    if cooldown ≤ now - last then ([pair], now)
    else ([], last)
  else ([], last)

/-- The pattern-trigger loop of the watch event loop (watch.go lines
225-232): each fired trigger yields its `(triggerType, command)` pair and the
clock at its index is advanced to `now` (a missing map key reads as the zero
time `0`). -/
def patternTriggerLoop (cooldown now : Int) (message : String) :
    List TriggerSpec → List Int → List (String × String) × List Int
  | [], _ => ([], [])
  | t :: ts, lasts =>
    let s1 := fireGate (t.matchesMsg message = true)
      ("pattern:" ++ t.source, t.command) (lasts.headD 0) now cooldown
    let srest := patternTriggerLoop cooldown now message ts lasts.tail
    (s1.1 ++ srest.1, s1.2 :: srest.2)

/-- One `entry := <-streamer.Logs()` iteration's trigger dispatch (watch.go
lines 206-232): the error trigger, the fault trigger, then every pattern
trigger, each gated only by its own cooldown clock. Returns the fired
`(triggerType, command)` pairs in emission order and the updated clocks. -/
def dispatchTriggers (c : WatchConfig) (s : TriggerState) (e : LogEntry)
    (now : Int) : List (String × String) × TriggerState :=
  let errS := fireGate (c.onError ≠ "" ∧ e.level = "Error")
    ("error", c.onError) s.lastError now c.cooldown
  let faultS := fireGate (c.onFault ≠ "" ∧ e.level = "Fault")
    ("fault", c.onFault) s.lastFault now c.cooldown
  let patS := patternTriggerLoop c.cooldown now e.message c.triggers s.lastPat
  (errS.1 ++ faultS.1 ++ patS.1,
   { lastError := errS.2, lastFault := faultS.2, lastPat := patS.2 })

/-- Each fired trigger produces one `trigger` NDJSON line and one spawned
shell command running in a fresh goroutine (`go func` in `runTrigger`,
watch.go lines 257-277); nothing in the dispatch consults how many previously
spawned commands are still running. -/
def dispatchEmit (c : WatchConfig) (s : TriggerState) (e : LogEntry)
    (now : Int) : List String × List String × TriggerState :=
  let d := dispatchTriggers c s e now
  (d.1.map (fun p => triggerLine p.1 p.2 e.message), d.1.map (fun p => p.2),
    d.2)

/-- The watch loop over a sequence of received entries (with their
`time.Now()` instants), accumulating the emitted trigger lines and the
spawned commands. With no completion event in between, every spawned command
is still running: the spawned list's length is the number of concurrently
running trigger invocations in the worst case. -/
def processEntries (c : WatchConfig) (s : TriggerState) :
    List (LogEntry × Int) → List String × List String × TriggerState
  | [] => ([], [], s)
  | (e, now) :: rest =>
    let d := dispatchEmit c s e now
    let r := processEntries c d.2.2 rest
    (d.1 ++ r.1, d.2.1 ++ r.2.1, r.2.2)

/-- Substring test (for "the emitted lines never carry a saturation /
skipped marker"). -/
def containsSubstr (s sub : String) : Bool :=
  (findSub sub.data s.data).isSome

/-- A concrete watch configuration: `--on-error notify.sh --cooldown 0s`
(no fault or pattern triggers). -/
def watchCfg0 : WatchConfig :=
  { onError := "notify.sh", onFault := "", triggers := [], cooldown := 0 }

/-- A concrete watch configuration with all three trigger kinds:
`--on-error e.sh --on-fault f.sh --on-pattern boom:p.sh --cooldown 5`. -/
def cfgW : WatchConfig :=
  { onError := "e.sh"
    onFault := "f.sh"
    triggers := [{ matchesMsg := fun m => decide (m = "boom"),
                   source := "boom", command := "p.sh" }]
    cooldown := 5 }

/-- Concrete cooldown clocks: the error trigger idle since 0, the fault
trigger since 8, the single pattern trigger since 2. -/
def sW : TriggerState := { lastError := 0, lastFault := 8, lastPat := [2] }

/-! ## Flag validation and exit codes (`src/internal/cli/flagdoctor.go`,
`src/unnamed/part_000` main) -/

/-- The `Globals` fields `validateFlags` consults. -/
structure Globals where
  format : String
  quiet : Bool
deriving DecidableEq, Repr

/-- The error event `outputErrorCommon` emits (update.go lines 80-91) before
returning a Go `error`. -/
structure ErrEvent where
  code : String
  message : String
  hint : String
deriving DecidableEq, Repr

/-- Go `globals != nil && globals.Format != "ndjson"`. -/
def globalsFormatNotNdjson : Option Globals → Bool
  | some g => !decide (g.format = "ndjson")
  | none => false

/-- Go `globals != nil && globals.Format == "text" && globals.Quiet`. -/
def globalsTextAndQuiet : Option Globals → Bool
  | some g => decide (g.format = "text") && g.quiet
  | none => false

/-- `cli.validateFlags` (flagdoctor.go lines 4-17): `some ev` means the event
`ev` is emitted (by `outputErrorCommon`) and an error is returned; `none`
means the flags pass. -/
def validateFlags (globals : Option Globals) (dryRunJSON tmux : Bool) :
    Option ErrEvent :=
  if dryRunJSON && tmux then
    some { code := "INVALID_FLAGS"
           message := "--dry-run-json cannot be combined with --tmux"
           hint := "drop --tmux or remove --dry-run-json" }
  else if dryRunJSON && globalsFormatNotNdjson globals then
    some { code := "INVALID_FLAGS"
           message := "--dry-run-json requires ndjson output"
           hint := "add --format ndjson or remove --dry-run-json" }
  else if globalsTextAndQuiet globals then
    some { code := "INVALID_FLAGS"
           message := "--quiet is only supported with ndjson output"
           hint := "switch to --format ndjson or drop --quiet" }
  else
    none

/-- `main` (part_000 lines 148-151): any non-nil error from the command's
`Run` leads to `os.Exit(1)`; a nil error returns normally (exit code 0).
There is no other `os.Exit` call in the program. -/
def mainExitCode (runReturnedError : Bool) : Nat :=
  if runReturnedError then 1 else 0

/-! ## Resume state persistence (`src/internal/cli/resume_state.go`) -/

/-- `cli.resumeState` (the persisted record). -/
structure ResumeStateRec where
  typeName : String
  schemaVersion : Int
  app : String
  udid : String
  lastSeenTimestamp : String
  lastLogTimestamp : String
  updatedAt : String
deriving DecidableEq, Repr

/-- Filesystem effects of the resume-state code, in program order. The
`writeFile` payload carries the marshalled record abstractly (the
`json.MarshalIndent` bytes are not modelled). -/
inductive FsOp where
  | mkdirAll (path : String) (perm : Nat)
  | writeFile (path : String) (st : ResumeStateRec) (perm : Nat)
  | rename (src dst : String)
deriving DecidableEq, Repr

/-- Whether an effect is a rename (atomic-replace step). -/
def FsOp.isRenameOp : FsOp → Bool
  | .rename _ _ => true
  | _ => false

/-- Whether an effect writes to the given path. -/
def FsOp.writesTo (op : FsOp) (p : String) : Bool :=
  match op with
  | .writeFile q _ _ => q = p
  | _ => false

/-- `filepath.Dir` restricted to the slash-separated absolute paths the
resume-state code builds: everything before the last `/`. -/
def dirOf (p : String) : String :=
  match findSub ['/'] p.data.reverse with
  | none => "."
  | some i =>
    let cut := p.data.length - 1 - i
    if cut = 0 then "/" else String.mk (p.data.take cut)

/-- `cli.defaultResumeStatePath` (resume_state.go lines 22-37): creates
`<home>/.xcw/resume` with mode 0755 and returns
`<home>/.xcw/resume/<app>.json` (`filepath.Join` embedded as `/`-concat on
the clean inputs involved). `home` stands for `os.UserHomeDir()`. -/
def defaultResumeStatePath (home app : String) :
    Except String (String × List FsOp) :=
  let app := goTrimSpace app
  if app = "" then .error "app is required for resume state path"
  else
    let dir := home ++ "/.xcw/resume"
    .ok (dir ++ "/" ++ app ++ ".json", [FsOp.mkdirAll dir 0o755])

/-- `cli.saveResumeState` (resume_state.go lines 58-75): `MkdirAll(Dir(path),
0755)` then a single direct `os.WriteFile(path, bytes, 0644)`. -/
def saveResumeState (path : String) (st : Option ResumeStateRec) :
    Except String (List FsOp) :=
  let path := goTrimSpace path
  if path = "" then .error "resume state path is required"
  else
    match st with
    | none => .error "resume state is required"
    | some st =>
      .ok [FsOp.mkdirAll (dirOf path) 0o755, FsOp.writeFile path st 0o644]

/-- A log entry with the fields the closed theorems vary; the rest are
fixed innocuous values. -/
def entryOf (subsystem : String) (pid : Int) (uuid level message : String) :
    LogEntry :=
  { timestamp := 0
    level := level
    process := "App"
    pid := pid
    processImageUUID := uuid
    subsystem := subsystem
    category := ""
    message := message }

/-- The tracker state after one matching entry for bundle `"com.ex"`
(used in the C3 counterexample). -/
def trackerAfterOne : Tracker :=
  ((NewTracker "com.ex" "Sim" "U").CheckEntry
    (entryOf "com.ex" 7 "U1" "Info" "m") 10).2

/-! ## Theorems -/

/-- C1: the claim says a qualifying entry with an unchanged PID but a changed
binary image UUID makes `CheckEntry` roll the session over. The tracker in
`src/unnamed/part_009` stores no binary-image UUID at all and rolls over only
on `pid != currentPID && pid > 0`: after an entry (PID 111, UUID "UUID-1")
starts session 1, a second qualifying entry with PID 111 and UUID "UUID-2"
returns no `SessionChange` — contradicting the package's own test
`TestTrackerDetectsBinaryUUIDChange` (which also calls a six-argument
`NewTracker` that does not exist in `src/`). This theorem evaluates the code
at that failing input. -/
theorem tracker_uuid_change_no_rollover :
    (((NewTracker "com.example.app" "Sim" "UDID").CheckEntry
        (entryOf "com.example.app" 111 "UUID-1" "Info" "m") 100).1.bind
      SessionChange.startSession).map SessionStart.session = some 1 ∧
    ((((NewTracker "com.example.app" "Sim" "UDID").CheckEntry
        (entryOf "com.example.app" 111 "UUID-1" "Info" "m") 100).2).CheckEntry
      (entryOf "com.example.app" 111 "UUID-2" "Info" "m") 200).1 = none := by
  decide

/-- C3 counterexample: the claim, at two concrete inputs. First, subsystem
`"com.exfoo"` neither equals the bundle `"com.ex"` nor starts with
`"com.ex."`, yet `CheckEntry` does not return nil on it (the source's
`matchesApp` requires no dot after the bundle id, so the entry starts a
session). Second, once a session is initialized, an entry with the unrelated
subsystem `"other"` does return nil but still mutates tracker state: the log
count and the error count are incremented. -/
theorem tracker_frame_counterexample :
    (("com.exfoo" ≠ "com.ex" ∧ "com.ex.".data.isPrefixOf "com.exfoo".data = false) ∧
      ((NewTracker "com.ex" "Sim" "U").CheckEntry
        (entryOf "com.exfoo" 5 "U1" "Info" "m") 10).1 ≠ none) ∧
    (("other" ≠ "com.ex" ∧ "com.ex.".data.isPrefixOf "other".data = false) ∧
      (trackerAfterOne.CheckEntry (entryOf "other" 7 "U1" "Error" "m") 20).1 =
        none ∧
      (trackerAfterOne.CheckEntry
          (entryOf "other" 7 "U1" "Error" "m") 20).2.logCount =
        trackerAfterOne.logCount + 1 ∧
      (trackerAfterOne.CheckEntry
          (entryOf "other" 7 "U1" "Error" "m") 20).2.errorCount =
        trackerAfterOne.errorCount + 1) := by
  decide

/-- C3 amended: for every entry the source classifies as non-matching
(subsystem differs from the bundle id and does not have it as a character
sequence starting it), `CheckEntry` returns nil and leaves the current
session, current PID and session start time unchanged; before initialization
it leaves the whole state unchanged, and after initialization it increments
the log count and, according to the entry's level, the error or fault
count. -/
theorem tracker_nonmatching_entry (t : Tracker) (e : LogEntry) (now : Int)
    (hne : e.subsystem ≠ t.app) (hm : t.matchesApp e = false) :
    (t.CheckEntry e now).1 = none ∧
    (t.CheckEntry e now).2.currentSession = t.currentSession ∧
    (t.CheckEntry e now).2.currentPID = t.currentPID ∧
    (t.CheckEntry e now).2.sessionStart = t.sessionStart ∧
    (t.inited = false → (t.CheckEntry e now).2 = t) ∧
    (t.inited = true →
      (t.CheckEntry e now).2.logCount = t.logCount + 1 ∧
      (t.CheckEntry e now).2.errorCount =
        t.errorCount + (if e.level = "Error" then 1 else 0) ∧
      (t.CheckEntry e now).2.faultCount =
        t.faultCount + (if e.level = "Fault" then 1 else 0)) := by
  unfold Tracker.CheckEntry
  rw [if_pos ⟨hne, hm⟩]
  cases hi : t.inited <;>
    simp only [hi, if_true, if_false, Bool.true_eq_false, Bool.false_eq_true,
      Tracker.updateCounts] <;>
    split_ifs <;> simp_all

/-- C3 amended, witness: the frame theorem applied at a concrete
uninitialized tracker and non-matching entry. -/
theorem tracker_nonmatching_entry_witness :
    ((NewTracker "com.ex" "S" "U").CheckEntry
      (entryOf "net.other" 3 "U1" "Info" "m") 5).1 = none ∧
    ((NewTracker "com.ex" "S" "U").CheckEntry
      (entryOf "net.other" 3 "U1" "Info" "m") 5).2 = NewTracker "com.ex" "S" "U" :=
  ⟨(tracker_nonmatching_entry (NewTracker "com.ex" "S" "U")
      (entryOf "net.other" 3 "U1" "Info" "m") 5 (by decide) (by decide)).1,
   (tracker_nonmatching_entry (NewTracker "com.ex" "S" "U")
      (entryOf "net.other" 3 "U1" "Info" "m") 5 (by decide)
      (by decide)).2.2.2.2.1 rfl⟩

/-- C4 counterexample: at the concrete invalid combination `--dry-run-json
--tmux` (ndjson format), `validateFlags` does emit the `INVALID_FLAGS` error
event, but `main` maps every command error to `os.Exit(1)`: the process exit
code is 1, not the claimed 2 (no path in the program exits with 2). -/
theorem invalid_flags_exit1_counterexample :
    (validateFlags (some { format := "ndjson", quiet := false }) true
        true).map ErrEvent.code = some "INVALID_FLAGS" ∧
    mainExitCode true = 1 ∧ mainExitCode true ≠ 2 := by
  decide

/-- C4 amended: whenever one of the three invalid flag combinations is
detected (`--dry-run-json` with `--tmux`; `--dry-run-json` with a non-ndjson
format; `--quiet` with text format), `validateFlags` emits an error event
whose code is `INVALID_FLAGS` and returns an error, which `main` turns into
process exit code 1 (not 2). -/
theorem invalid_flags_emit_then_exit1 (g : Option Globals) (d t : Bool)
    (h : (d = true ∧ t = true) ∨
      (d = true ∧ globalsFormatNotNdjson g = true) ∨
      globalsTextAndQuiet g = true) :
    (∃ ev, validateFlags g d t = some ev ∧ ev.code = "INVALID_FLAGS") ∧
    mainExitCode true = 1 := by
  refine ⟨?_, rfl⟩
  unfold validateFlags
  split_ifs with h1 h2 h3
  · exact ⟨_, rfl, rfl⟩
  · exact ⟨_, rfl, rfl⟩
  · exact ⟨_, rfl, rfl⟩
  · exfalso
    rcases h with ⟨hd, ht⟩ | ⟨hd, hf⟩ | hq
    · exact h1 (by simp [hd, ht])
    · exact h2 (by simp [hd, hf])
    · exact h3 hq

/-- C4 amended, witness: the amended theorem applied to `--dry-run-json
--tmux` with ndjson globals. -/
theorem invalid_flags_emit_then_exit1_witness :
    (∃ ev, validateFlags (some { format := "ndjson", quiet := false }) true
        true = some ev ∧ ev.code = "INVALID_FLAGS") ∧
    mainExitCode true = 1 :=
  invalid_flags_emit_then_exit1 (some { format := "ndjson", quiet := false })
    true true (Or.inl ⟨rfl, rfl⟩)

/-- A concrete resume-state record for the persistence theorems. -/
def resumeSt0 : ResumeStateRec :=
  { typeName := "resume_state"
    schemaVersion := 1
    app := "com.ex"
    udid := "U"
    lastSeenTimestamp := "2024-01-01T00:00:00Z"
    lastLogTimestamp := "2024-01-01T00:00:00Z"
    updatedAt := "2024-01-01T00:00:01Z" }

/-- C5 counterexample: at the concrete home `/home/u` and bundle `com.ex`,
the default path and the directory/file modes are as claimed, but
`saveResumeState` performs a single direct `os.WriteFile` to the target path:
its effect list contains no temporary-file write and no rename, so the
claimed atomic temp-write-plus-rename replacement does not happen. -/
theorem resume_save_not_atomic_counterexample :
    defaultResumeStatePath "/home/u" "com.ex" =
      .ok ("/home/u/.xcw/resume/com.ex.json",
        [FsOp.mkdirAll "/home/u/.xcw/resume" 0o755]) ∧
    saveResumeState "/home/u/.xcw/resume/com.ex.json" (some resumeSt0) =
      .ok [FsOp.mkdirAll "/home/u/.xcw/resume" 0o755,
        FsOp.writeFile "/home/u/.xcw/resume/com.ex.json" resumeSt0 0o644] ∧
    ([FsOp.mkdirAll "/home/u/.xcw/resume" 0o755,
        FsOp.writeFile "/home/u/.xcw/resume/com.ex.json" resumeSt0
          0o644].all (fun op => !op.isRenameOp)) = true :=
  ⟨rfl, rfl, rfl⟩

/-- C5 amended: for every home, bundle id and state, the default resume path
is `<home>/.xcw/resume/<bundle-id>.json` with the parent directory created
with mode 0755, and `saveResumeState` writes the file with mode 0644 — but
directly in place: its effects are exactly `MkdirAll(Dir(path), 0755)`
followed by one `WriteFile(path, …, 0644)`, with no temporary file and no
rename. -/
theorem resume_state_persistence (home app path : String)
    (st : ResumeStateRec) (ha : goTrimSpace app ≠ "")
    (hp : goTrimSpace path ≠ "") :
    defaultResumeStatePath home app =
      .ok (home ++ "/.xcw/resume/" ++ goTrimSpace app ++ ".json",
        [FsOp.mkdirAll (home ++ "/.xcw/resume") 0o755]) ∧
    saveResumeState path (some st) =
      .ok [FsOp.mkdirAll (dirOf (goTrimSpace path)) 0o755,
        FsOp.writeFile (goTrimSpace path) st 0o644] ∧
    (∀ ops, saveResumeState path (some st) = .ok ops →
      (ops.all (fun op => !op.isRenameOp)) = true) := by
  refine ⟨?_, ?_, ?_⟩
  · unfold defaultResumeStatePath
    rw [if_neg ha]
    simp [String.append_assoc]
  · unfold saveResumeState
    rw [if_neg hp]
  · intro ops hops
    unfold saveResumeState at hops
    rw [if_neg hp] at hops
    cases hops
    rfl

/-- C5 amended, witness: the persistence theorem at the concrete home,
bundle and path. -/
theorem resume_state_persistence_witness :
    defaultResumeStatePath "/home/u" "com.ex" =
      .ok ("/home/u" ++ "/.xcw/resume/" ++ goTrimSpace "com.ex" ++ ".json",
        [FsOp.mkdirAll ("/home/u" ++ "/.xcw/resume") 0o755]) ∧
    saveResumeState "/home/u/.xcw/resume/com.ex.json" (some resumeSt0) =
      .ok [FsOp.mkdirAll (dirOf (goTrimSpace "/home/u/.xcw/resume/com.ex.json")) 0o755,
        FsOp.writeFile (goTrimSpace "/home/u/.xcw/resume/com.ex.json")
          resumeSt0 0o644] :=
  ⟨(resume_state_persistence "/home/u" "com.ex"
      "/home/u/.xcw/resume/com.ex.json" resumeSt0 (by decide) (by decide)).1,
   (resume_state_persistence "/home/u" "com.ex"
      "/home/u/.xcw/resume/com.ex.json" resumeSt0 (by decide)
      (by decide)).2.1⟩

/-- A successful map lookup returns an element of the list. -/
theorem alistLookup_mem (l : List (String × DedupeEntryRec)) (k : String)
    (v : DedupeEntryRec) (h : alistLookup l k = some v) : (k, v) ∈ l := by
  induction l with
  | nil => simp [alistLookup] at h
  | cons p rest ih =>
    rw [alistLookup] at h
    by_cases hk : p.1 = k
    · rw [if_pos hk] at h
      cases h
      rw [← hk]
      exact Prod.mk.eta ▸ List.mem_cons_self _ _
    · rw [if_neg hk] at h
      exact List.mem_cons_of_mem _ (ih h)

/-- The window-mode cleanup only removes entries. -/
theorem preClean_seen_mem (f : DedupeFilter) (now : Int)
    (p : String × DedupeEntryRec) (h : p ∈ (f.preClean now).seen) :
    p ∈ f.seen := by
  unfold DedupeFilter.preClean at h
  split_ifs at h
  · exact List.mem_of_mem_filter h
  · exact h

/-- `preClean` does not touch the window. -/
theorem preClean_window (f : DedupeFilter) (now : Int) :
    (f.preClean now).window = f.window := by
  unfold DedupeFilter.preClean
  split_ifs <;> rfl

/-- `preClean` does not touch the last-message tracker. -/
theorem preClean_lastMessage (f : DedupeFilter) (now : Int) :
    (f.preClean now).lastMessage = f.lastMessage := by
  unfold DedupeFilter.preClean
  split_ifs <;> rfl

/-- Every `Check` result is either the fresh emission `⟨true, 1, now, now⟩`
or a suppression `⟨false, ex.count + 1, ex.firstSeen, now⟩` for some entry
`ex` found in the (cleaned) table. -/
theorem check_result_cases (f : DedupeFilter) (e : LogEntry) (now : Int) :
    (f.Check e now).1 = ⟨true, 1, now, now⟩ ∨
    ∃ ex, alistLookup (f.preClean now).seen e.message = some ex ∧
      (f.Check e now).1 = ⟨false, ex.count + 1, ex.firstSeen, now⟩ := by
  unfold DedupeFilter.Check
  cases hl : alistLookup (f.preClean now).seen e.message with
  | none => left; simp [hl]
  | some ex =>
    simp only [hl]
    split_ifs with h1 h2
    · exact Or.inr ⟨ex, rfl, rfl⟩
    · exact Or.inr ⟨ex, rfl, rfl⟩
    · exact Or.inl rfl

/-- C10: for every dedupe filter state whose table holds only positive
counts (an invariant of all reachable states) and every entry, the
`DedupeResult` of `Check` emits exactly when its count is 1, and a count of
1 comes with equal first-seen and last-seen stamps. -/
theorem dedupe_emit_iff_count_one (f : DedupeFilter) (e : LogEntry)
    (now : Int) (hpos : ∀ p ∈ f.seen, 1 ≤ p.2.count) :
    ((f.Check e now).1.shouldEmit = true ↔ (f.Check e now).1.count = 1) ∧
    ((f.Check e now).1.count = 1 →
      (f.Check e now).1.firstSeen = (f.Check e now).1.lastSeen) := by
  rcases check_result_cases f e now with h | ⟨ex, hl, h⟩
  · rw [h]
    exact ⟨by simp, fun _ => rfl⟩
  · rw [h]
    have hmem : (e.message, ex) ∈ f.seen :=
      preClean_seen_mem f now _ (alistLookup_mem _ _ _ hl)
    have hcnt : 1 ≤ ex.count := hpos _ hmem
    constructor
    · constructor
      · intro hfalse
        have hbad : false = true := hfalse
        exact absurd hbad (by simp)
      · intro hc
        have hc' : ex.count + 1 = 1 := hc
        omega
    · intro hc
      have hc' : ex.count + 1 = 1 := hc
      exact absurd hc' (by omega)

/-- C10, witness: the invariant theorem at the empty consecutive-mode filter
and a concrete entry. -/
theorem dedupe_emit_iff_count_one_witness :
    (((NewDedupeFilter 0).Check (entryOf "com.ex" 1 "U" "Info" "dup") 5).1.shouldEmit
        = true ↔
      ((NewDedupeFilter 0).Check (entryOf "com.ex" 1 "U" "Info" "dup") 5).1.count
        = 1) ∧
    (((NewDedupeFilter 0).Check (entryOf "com.ex" 1 "U" "Info" "dup") 5).1.count
        = 1 →
      ((NewDedupeFilter 0).Check (entryOf "com.ex" 1 "U" "Info" "dup") 5).1.firstSeen
        = ((NewDedupeFilter 0).Check (entryOf "com.ex" 1 "U" "Info" "dup") 5).1.lastSeen) :=
  dedupe_emit_iff_count_one (NewDedupeFilter 0)
    (entryOf "com.ex" 1 "U" "Info" "dup") 5 (by simp [NewDedupeFilter])

/-- One suppression step of the consecutive run: from a one-entry table for
the run's message with that message as the last one, `Check` suppresses and
bumps the count. -/
theorem check_consecutive_step (e : LogEntry) (k : Nat) (t lt le now : Int) :
    (DedupeFilter.mk 0 [(e.message, ⟨k + 1, t, lt⟩)] e.message le).Check e
      now =
    (⟨false, k + 2, t, now⟩,
      DedupeFilter.mk 0 [(e.message, ⟨k + 2, t, now⟩)] e.message le) := by
  unfold DedupeFilter.Check DedupeFilter.preClean
  simp [alistLookup, alistStore]

/-- The tail of the consecutive run: every result from a state already
holding the message (with it as last message) is a suppression, and the
final table carries the accumulated count. -/
theorem checkRun_consecutive (e : LogEntry) (ts : List Int) :
    ∀ (k : Nat) (t lt le : Int),
    (∀ r ∈ ((DedupeFilter.mk 0 [(e.message, ⟨k + 1, t, lt⟩)] e.message
        le).checkRun e ts).1, r.shouldEmit = false) ∧
    ∃ lt', ((DedupeFilter.mk 0 [(e.message, ⟨k + 1, t, lt⟩)] e.message
        le).checkRun e ts).2 =
      DedupeFilter.mk 0 [(e.message, ⟨k + 1 + ts.length, t, lt'⟩)]
        e.message le := by
  induction ts with
  | nil =>
    intro k t lt le
    exact ⟨by simp [DedupeFilter.checkRun], lt, rfl⟩
  | cons now rest ih =>
    intro k t lt le
    constructor
    · intro r hr
      rw [DedupeFilter.checkRun, check_consecutive_step] at hr
      simp only [List.mem_cons] at hr
      rcases hr with hr | hr
      · rw [hr]
      · exact ((ih (k + 1) t now le).1 r (by simpa using hr))
    · obtain ⟨lt', hst⟩ := (ih (k + 1) t now le).2
      refine ⟨lt', ?_⟩
      rw [DedupeFilter.checkRun, check_consecutive_step]
      simp only
      rw [hst]
      have : k + 1 + 1 + rest.length = k + 1 + (rest.length + 1) := by omega
      rw [this, List.length_cons]

/-- C6: for every message and every run of `K = 1 + |ts|` identical
consecutive entries into a fresh consecutive-mode dedupe filter, exactly the
first `Check` emits (with count 1 and equal stamps) and all later calls
suppress; afterwards `GetPendingDuplicates` reports the message with count
`K` exactly when `K > 1` (and nothing when `K = 1`). -/
theorem dedupe_consecutive_run (e : LogEntry) (t : Int) (ts : List Int) :
    (consecutiveRun e t ts).1.head? = some ⟨true, 1, t, t⟩ ∧
    (∀ r ∈ (consecutiveRun e t ts).1.tail, r.shouldEmit = false) ∧
    (ts = [] → (consecutiveRun e t ts).2.GetPendingDuplicates = []) ∧
    (ts ≠ [] → ∃ en, (consecutiveRun e t ts).2.GetPendingDuplicates =
      [(e.message, en)] ∧ en.count = (t :: ts).length) := by
  have hstep0 : (NewDedupeFilter 0).Check e t =
      (⟨true, 1, t, t⟩,
        DedupeFilter.mk 0 [(e.message, ⟨1, t, t⟩)] e.message t) := by
    unfold DedupeFilter.Check DedupeFilter.preClean NewDedupeFilter
    simp [alistLookup, alistStore]
  have hrun := checkRun_consecutive e ts 0 t t t
  obtain ⟨lt', hst⟩ := hrun.2
  have hun : consecutiveRun e t ts =
      (⟨true, 1, t, t⟩ ::
        ((DedupeFilter.mk 0 [(e.message, ⟨1, t, t⟩)] e.message t).checkRun
          e ts).1,
       ((DedupeFilter.mk 0 [(e.message, ⟨1, t, t⟩)] e.message t).checkRun
          e ts).2) := by
    unfold consecutiveRun
    rw [DedupeFilter.checkRun, hstep0]
  refine ⟨?_, ?_, ?_, ?_⟩
  · rw [hun]; rfl
  · intro r hr
    rw [hun] at hr
    exact hrun.1 r (by simpa using hr)
  · intro hts
    subst hts
    rw [hun, hst]
    simp [DedupeFilter.GetPendingDuplicates]
  · intro hts
    refine ⟨⟨1 + ts.length, t, lt'⟩, ?_, ?_⟩
    · rw [hun, hst]
      have hlen : 0 < ts.length := List.length_pos.mpr hts
      simp [DedupeFilter.GetPendingDuplicates]
      omega
    · simp
      omega

/-- C6, witness: the round-trip theorem at a concrete entry and a run of
length 3. -/
theorem dedupe_consecutive_run_witness :
    (consecutiveRun (entryOf "com.ex" 1 "U" "Info" "dup") 0 [1, 2]).1.head? =
      some ⟨true, 1, 0, 0⟩ ∧
    ∃ en, (consecutiveRun (entryOf "com.ex" 1 "U" "Info" "dup") 0
        [1, 2]).2.GetPendingDuplicates =
      [((entryOf "com.ex" 1 "U" "Info" "dup").message, en)] ∧ en.count = 3 :=
  ⟨(dedupe_consecutive_run (entryOf "com.ex" 1 "U" "Info" "dup") 0 [1, 2]).1,
   (dedupe_consecutive_run (entryOf "com.ex" 1 "U" "Info" "dup") 0
      [1, 2]).2.2.2 (by decide)⟩

/-- The fired pairs of one `fireGate` check. -/
theorem fireGate_fst (P : Prop) [Decidable P] (pair : String × String)
    (last now cd : Int) :
    (fireGate P pair last now cd).1 =
      if P ∧ cd ≤ now - last then [pair] else [] := by
  unfold fireGate
  split_ifs <;> first | rfl | tauto

/-- The updated clock of one `fireGate` check. -/
theorem fireGate_snd (P : Prop) [Decidable P] (pair : String × String)
    (last now cd : Int) :
    (fireGate P pair last now cd).2 =
      if P ∧ cd ≤ now - last then now else last := by
  unfold fireGate
  split_ifs <;> first | rfl | tauto

/-- `headD` is `getD 0`. -/
theorem headD_eq_getD (l : List Int) : l.headD 0 = l.getD 0 0 := by
  cases l <;> rfl

/-- `getD` after `tail` shifts the index. -/
theorem tail_getD (l : List Int) (j : Nat) :
    l.tail.getD j 0 = l.getD (j + 1) 0 := by
  cases l <;> rfl

/-- Membership in an if-guarded singleton. -/
theorem mem_ite_singleton (P : Prop) [Decidable P] (p x : String × String) :
    p ∈ (if P then [x] else []) ↔ P ∧ p = x := by
  split_ifs with h <;> simp [h]

/-- After the pattern loop, the clock at index `i` is advanced to `now`
exactly when that trigger matched and its own cooldown had elapsed. -/
theorem patternLoop_clock (cd now : Int) (msg : String) :
    ∀ (ts : List TriggerSpec) (lasts : List Int) (i : Nat)
      (hi : i < ts.length),
    (patternTriggerLoop cd now msg ts lasts).2.getD i 0 =
      if ts[i].matchesMsg msg = true ∧ cd ≤ now - lasts.getD i 0 then now
      else lasts.getD i 0 := by
  intro ts
  induction ts with
  | nil => intro lasts i hi; simp at hi
  | cons t rest ih =>
    intro lasts i hi
    cases i with
    | zero =>
      simp only [patternTriggerLoop, List.getD_cons_zero,
        List.getElem_cons_zero]
      rw [fireGate_snd, headD_eq_getD]
    | succ j =>
      have hj : j < rest.length := by simpa using hi
      simp only [patternTriggerLoop, List.getD_cons_succ,
        List.getElem_cons_succ]
      rw [ih lasts.tail j hj, tail_getD]

/-- The fired pairs of the pattern loop are exactly those of the triggers
that matched with an elapsed cooldown. -/
theorem patternLoop_fired (cd now : Int) (msg : String) :
    ∀ (ts : List TriggerSpec) (lasts : List Int) (p : String × String),
    p ∈ (patternTriggerLoop cd now msg ts lasts).1 ↔
      ∃ i, ∃ hi : i < ts.length,
        p = ("pattern:" ++ ts[i].source, ts[i].command) ∧
        ts[i].matchesMsg msg = true ∧ cd ≤ now - lasts.getD i 0 := by
  intro ts
  induction ts with
  | nil => intro lasts p; simp [patternTriggerLoop]
  | cons t rest ih =>
    intro lasts p
    simp only [patternTriggerLoop, List.mem_append]
    rw [fireGate_fst, mem_ite_singleton, ih lasts.tail p]
    constructor
    · rintro (⟨⟨hm, hcd⟩, hpe⟩ | ⟨i, hi, hpe, hm, hcd⟩)
      · refine ⟨0, by simp, ?_, ?_, ?_⟩
        · simpa using hpe
        · simpa using hm
        · rw [← headD_eq_getD]; exact hcd
      · refine ⟨i + 1, by simpa using hi, ?_, ?_, ?_⟩
        · simpa using hpe
        · simpa using hm
        · rw [← tail_getD]; exact hcd
    · rintro ⟨i, hi, hpe, hm, hcd⟩
      cases i with
      | zero =>
        left
        refine ⟨⟨by simpa using hm, ?_⟩, by simpa using hpe⟩
        rw [headD_eq_getD]; exact hcd
      | succ j =>
        right
        refine ⟨j, by simpa using hi, by simpa using hpe,
          by simpa using hm, ?_⟩
        rw [tail_getD]; exact hcd

/-- C7: each trigger of the watch loop keeps its own last-fire clock, and on
an entry observed at `now` the trigger's command is dispatched iff the
trigger is configured, the entry matches it (error level, fault level, or
the pattern regex) and `now − last_fire ≥ cooldown`, a fire advancing
exactly that trigger's clock to `now`. The fired list contains precisely the
pairs licensed this way. -/
theorem trigger_cooldown_iff (c : WatchConfig) (s : TriggerState)
    (e : LogEntry) (now : Int) :
    ((dispatchTriggers c s e now).2.lastError =
      if c.onError ≠ "" ∧ e.level = "Error" ∧
          c.cooldown ≤ now - s.lastError
      then now else s.lastError) ∧
    ((dispatchTriggers c s e now).2.lastFault =
      if c.onFault ≠ "" ∧ e.level = "Fault" ∧
          c.cooldown ≤ now - s.lastFault
      then now else s.lastFault) ∧
    (∀ i, ∀ hi : i < c.triggers.length,
      (dispatchTriggers c s e now).2.lastPat.getD i 0 =
        if c.triggers[i].matchesMsg e.message = true ∧
            c.cooldown ≤ now - s.lastPat.getD i 0
        then now else s.lastPat.getD i 0) ∧
    (∀ p, p ∈ (dispatchTriggers c s e now).1 ↔
      (p = ("error", c.onError) ∧ c.onError ≠ "" ∧ e.level = "Error" ∧
        c.cooldown ≤ now - s.lastError) ∨
      (p = ("fault", c.onFault) ∧ c.onFault ≠ "" ∧ e.level = "Fault" ∧
        c.cooldown ≤ now - s.lastFault) ∨
      (∃ i, ∃ hi : i < c.triggers.length,
        p = ("pattern:" ++ c.triggers[i].source, c.triggers[i].command) ∧
        c.triggers[i].matchesMsg e.message = true ∧
        c.cooldown ≤ now - s.lastPat.getD i 0)) := by
  refine ⟨?_, ?_, ?_, ?_⟩
  · show (fireGate (c.onError ≠ "" ∧ e.level = "Error") ("error", c.onError)
        s.lastError now c.cooldown).2 = _
    rw [fireGate_snd]
    simp [and_assoc]
  · show (fireGate (c.onFault ≠ "" ∧ e.level = "Fault") ("fault", c.onFault)
        s.lastFault now c.cooldown).2 = _
    rw [fireGate_snd]
    simp [and_assoc]
  · intro i hi
    exact patternLoop_clock c.cooldown now e.message c.triggers s.lastPat i hi
  · intro p
    show p ∈ (fireGate (c.onError ≠ "" ∧ e.level = "Error")
        ("error", c.onError) s.lastError now c.cooldown).1 ++
      (fireGate (c.onFault ≠ "" ∧ e.level = "Fault") ("fault", c.onFault)
        s.lastFault now c.cooldown).1 ++
      (patternTriggerLoop c.cooldown now e.message c.triggers s.lastPat).1 ↔ _
    rw [List.mem_append, List.mem_append, fireGate_fst, fireGate_fst,
      mem_ite_singleton, mem_ite_singleton,
      patternLoop_fired c.cooldown now e.message c.triggers s.lastPat p]
    tauto

/-- C7, witness: at the concrete configuration `cfgW`, clocks `sW` and an
error-level `"boom"` entry at instant 6, the error trigger fires (6 − 0 ≥ 5)
while the pattern trigger, though matched, stays in cooldown (6 − 2 < 5). -/
theorem trigger_cooldown_iff_witness :
    ("error", "e.sh") ∈
      (dispatchTriggers cfgW sW (entryOf "com.ex" 1 "U" "Error" "boom")
        6).1 ∧
    (dispatchTriggers cfgW sW (entryOf "com.ex" 1 "U" "Error" "boom")
        6).2.lastPat.getD 0 0 = 2 :=
  ⟨((trigger_cooldown_iff cfgW sW (entryOf "com.ex" 1 "U" "Error" "boom")
        6).2.2.2 ("error", "e.sh")).mpr
      (Or.inl ⟨rfl, by decide, rfl, by decide⟩),
   (trigger_cooldown_iff cfgW sW (entryOf "com.ex" 1 "U" "Error" "boom")
     6).2.2.1 0 (by decide)⟩

/-- C2 counterexample: with `--on-error notify.sh --cooldown 0s` and two
error entries received while no spawned command has finished, the watch loop
has two trigger commands running concurrently — exceeding any bound of 1 —
and none of the emitted NDJSON lines mentions `skipped` or `saturation`: the
dispatch consults no running count, has no `max_parallel_triggers`
configuration, and emits no saturation event. -/
theorem watch_saturation_never_emitted :
    (processEntries watchCfg0 initialTriggerState
      [(entryOf "com.ex" 1 "U" "Error" "boom", 10),
       (entryOf "com.ex" 1 "U" "Error" "boom", 20)]).2.1.length = 2 ∧
    1 < (processEntries watchCfg0 initialTriggerState
      [(entryOf "com.ex" 1 "U" "Error" "boom", 10),
       (entryOf "com.ex" 1 "U" "Error" "boom", 20)]).2.1.length ∧
    ((processEntries watchCfg0 initialTriggerState
      [(entryOf "com.ex" 1 "U" "Error" "boom", 10),
       (entryOf "com.ex" 1 "U" "Error" "boom", 20)]).1.all
      (fun l => !containsSubstr l "skipped" &&
        !containsSubstr l "saturation")) = true := by
  decide

/-- The watch loop under `watchCfg0` from any clock state whose error clock
allows firing: every received error entry spawns one more background
command, without bound. -/
theorem watch_unbounded_aux (n : Nat) :
    ∀ (le lf : Int) (lp : List Int), le ≤ 10 →
    processEntries watchCfg0 ⟨le, lf, lp⟩
      (List.replicate n (entryOf "com.ex" 1 "U" "Error" "boom", 10)) =
      (List.replicate n (triggerLine "error" "notify.sh" "boom"),
       List.replicate n "notify.sh",
       if n = 0 then ⟨le, lf, lp⟩ else ⟨10, lf, []⟩) := by
  induction n with
  | zero => intro le lf lp _; rfl
  | succ m ih =>
    intro le lf lp h
    have hE : (watchCfg0.onError ≠ "" ∧
        (entryOf "com.ex" 1 "U" "Error" "boom").level = "Error") ∧
        watchCfg0.cooldown ≤ 10 - le :=
      ⟨⟨by decide, rfl⟩, by show (0 : Int) ≤ 10 - le; omega⟩
    have hF : ¬((watchCfg0.onFault ≠ "" ∧
        (entryOf "com.ex" 1 "U" "Error" "boom").level = "Fault") ∧
        watchCfg0.cooldown ≤ 10 - lf) := by
      simp [watchCfg0]
    have hd : dispatchTriggers watchCfg0 ⟨le, lf, lp⟩
        (entryOf "com.ex" 1 "U" "Error" "boom") 10 =
        ([("error", "notify.sh")], ⟨10, lf, []⟩) := by
      simp only [dispatchTriggers]
      rw [fireGate_fst, fireGate_snd, fireGate_fst, fireGate_snd,
        if_pos hE, if_pos hE, if_neg hF, if_neg hF]
      simp [watchCfg0, patternTriggerLoop]
    have hde : dispatchEmit watchCfg0 ⟨le, lf, lp⟩
        (entryOf "com.ex" 1 "U" "Error" "boom") 10 =
        ([triggerLine "error" "notify.sh" "boom"], ["notify.sh"],
          ⟨10, lf, []⟩) := by
      unfold dispatchEmit
      rw [hd]
      rfl
    have hstep : processEntries watchCfg0 ⟨le, lf, lp⟩
        ((entryOf "com.ex" 1 "U" "Error" "boom", 10) ::
          List.replicate m (entryOf "com.ex" 1 "U" "Error" "boom", 10)) =
        (triggerLine "error" "notify.sh" "boom" ::
          (processEntries watchCfg0 ⟨10, lf, []⟩
            (List.replicate m
              (entryOf "com.ex" 1 "U" "Error" "boom", 10))).1,
         "notify.sh" ::
          (processEntries watchCfg0 ⟨10, lf, []⟩
            (List.replicate m
              (entryOf "com.ex" 1 "U" "Error" "boom", 10))).2.1,
         (processEntries watchCfg0 ⟨10, lf, []⟩
            (List.replicate m
              (entryOf "com.ex" 1 "U" "Error" "boom", 10))).2.2) := by
      conv_lhs => rw [processEntries]
      rw [hde]
      rfl
    rw [List.replicate_succ, hstep, ih 10 lf [] (by omega)]
    simp [List.replicate_succ]

/-- C2 amended: watch mode imposes no parallelism bound at all — for every
`n`, a sequence of `n` cooldown-eligible error entries spawns `n` background
trigger commands (each in its own goroutine, so log processing is not
blocked), and the emitted NDJSON lines are exactly the `n` `trigger` events;
no `max_parallel_triggers` bound exists and no saturation/skip event is ever
produced. -/
theorem watch_triggers_unbounded (n : Nat) :
    (processEntries watchCfg0 initialTriggerState
      (List.replicate n (entryOf "com.ex" 1 "U" "Error" "boom", 10))).1 =
      List.replicate n (triggerLine "error" "notify.sh" "boom") ∧
    (processEntries watchCfg0 initialTriggerState
      (List.replicate n (entryOf "com.ex" 1 "U" "Error" "boom", 10))).2.1 =
      List.replicate n "notify.sh" := by
  have h := watch_unbounded_aux n 0 0 [] (by omega)
  have hinit : initialTriggerState = TriggerState.mk 0 0 [] := rfl
  rw [hinit, h]
  constructor <;> rfl

/-- C8 counterexample: the clause `"!=b"` contains the compound operator
`!=` (at index 0), yet `ParseWhereClause` successfully splits it at the
single-character substring `=` (field `"!"`, value `"b"`), because the loop
only accepts an operator whose first occurrence index is positive and
`strings.Index` reports the first occurrence. -/
theorem where_compound_op_counterexample :
    (ParseWhereClause (fun _ => true) (fun _ _ => false) "!=b").map
      WhereClause.triple = Except.ok ("!", "=", "b") ∧
    containsSubstr "!=b" "!=" = true :=
  ⟨rfl, rfl⟩

/-- The parser loop splits at the first operator (in list order) whose first
occurrence in the clause sits at a positive index; every earlier-tried
operator's first occurrence was not at a positive index, the trimmed field
and value are the two sides of that split and are nonempty, and if no
operator in the list has a positive first index the loop errors. -/
theorem parseWhereLoop_spec (cOk : String → Bool)
    (rx : String → String → Bool) (clause : String) :
    ∀ ops : List String,
    (∀ wc, parseWhereLoop cOk rx clause ops = .ok wc →
      0 < strIndex clause wc.Operator ∧
      wc.Field = whereFieldAt clause wc.Operator ∧
      wc.Value = whereValueAt clause wc.Operator ∧
      wc.Field ≠ "" ∧ wc.Value ≠ "" ∧
      ∃ pre suf, ops = pre ++ wc.Operator :: suf ∧
        ∀ op ∈ pre, strIndex clause op ≤ 0) ∧
    ((∀ op ∈ ops, strIndex clause op ≤ 0) →
      ∃ msg, parseWhereLoop cOk rx clause ops = .error msg) := by
  intro ops
  induction ops with
  | nil =>
    constructor
    · intro wc h
      simp [parseWhereLoop] at h
    · intro _
      exact ⟨_, rfl⟩
  | cons op rest ih =>
    by_cases hidx : 0 < strIndex clause op
    · constructor
      · intro wc h
        rw [parseWhereLoop, if_pos hidx] at h
        by_cases hempty :
            whereFieldAt clause op = "" ∨ whereValueAt clause op = ""
        · rw [if_pos hempty] at h
          exact absurd h (by simp)
        · rw [if_neg hempty] at h
          push_neg at hempty
          by_cases hop : op = "~" ∨ op = "!~"
          · rw [if_pos hop] at h
            by_cases hok : cOk (whereValueAt clause op) = true
            · rw [if_pos hok] at h
              cases h
              exact ⟨hidx, rfl, rfl, hempty.1, hempty.2, [], rest, rfl,
                by simp⟩
            · rw [if_neg hok] at h
              exact absurd h (by simp)
          · rw [if_neg hop] at h
            cases h
            exact ⟨hidx, rfl, rfl, hempty.1, hempty.2, [], rest, rfl,
              by simp⟩
      · intro hall
        exact absurd (hall op (List.mem_cons_self op rest)) (by omega)
    · have hle : strIndex clause op ≤ 0 := by omega
      constructor
      · intro wc h
        rw [parseWhereLoop, if_neg hidx] at h
        obtain ⟨h1, h2, h3, h4, h5, pre, suf, hsplit, hpre⟩ :=
          (ih).1 wc h
        refine ⟨h1, h2, h3, h4, h5, op :: pre, suf, by rw [hsplit]; rfl, ?_⟩
        intro op' hop'
        rcases List.mem_cons.mp hop' with hop' | hop'
        · rw [hop']; exact hle
        · exact hpre op' hop'
      · intro hall
        obtain ⟨msg, hmsg⟩ := (ih).2 (fun o ho =>
          hall o (List.mem_cons_of_mem op ho))
        refine ⟨msg, ?_⟩
        rw [parseWhereLoop, if_neg hidx]
        exact hmsg

/-- C8 amended: `ParseWhereClause` tries the operator tokens in the fixed
order `!~, >=, <=, !=, ~, =, ^, $` and splits at the first token in that
order whose first occurrence in the clause is at a positive index (so a
compound operator whose first occurrence is at a positive index is chosen
over its single-character substring, but a compound occurring only at index
0 is passed over, as in `"!=b"`); the trimmed field and value flank that
occurrence and must be nonempty, and a clause in which no operator token has
a positive first-occurrence index yields an error. -/
theorem parse_where_splits_in_order (cOk : String → Bool)
    (rx : String → String → Bool) (clause : String) :
    (∀ wc, ParseWhereClause cOk rx clause = .ok wc →
      0 < strIndex clause wc.Operator ∧
      wc.Field = whereFieldAt clause wc.Operator ∧
      wc.Value = whereValueAt clause wc.Operator ∧
      wc.Field ≠ "" ∧ wc.Value ≠ "" ∧
      ∃ pre suf, whereOps = pre ++ wc.Operator :: suf ∧
        ∀ op ∈ pre, strIndex clause op ≤ 0) ∧
    ((∀ op ∈ whereOps, strIndex clause op ≤ 0) →
      ∃ msg, ParseWhereClause cOk rx clause = .error msg) :=
  parseWhereLoop_spec cOk rx clause whereOps

/-- C8 amended, witness: on `"a!=b"` the parser picks `!=` (field `"a"`,
value `"b"`); its first occurrence index 1 is positive and the three
operators tried before `!=` all lack a positive first index. -/
theorem parse_where_splits_in_order_witness :
    0 < strIndex "a!=b" "!=" ∧
    ∃ pre suf, whereOps = pre ++ "!=" :: suf ∧
      ∀ op ∈ pre, strIndex "a!=b" op ≤ 0 :=
  ⟨((parse_where_splits_in_order (fun _ => true) (fun _ _ => false)
      "a!=b").1 ⟨"a", "!=", "b", none⟩ rfl).1,
   ((parse_where_splits_in_order (fun _ => true) (fun _ _ => false)
      "a!=b").1 ⟨"a", "!=", "b", none⟩ rfl).2.2.2.2.2⟩

/-- C9: a `>=` or `<=` WHERE clause is decided by `compareLevel`: when the
clause's field is `level` (case-insensitively), `Match` compares the entry's
severity priority with the priority of the parsed target level (`≥`
respectively `≤`); for any other field the clause matches no log entry. -/
theorem where_level_compare (wc : WhereClause) (e : LogEntry)
    (h : wc.Operator = ">=" ∨ wc.Operator = "<=") :
    wc.Match e =
      if goToLower wc.Field = "level" then
        (if wc.Operator = ">=" then
          decide (priority (parseLogLevel wc.Value) ≤ priority e.level)
        else
          decide (priority e.level ≤ priority (parseLogLevel wc.Value)))
      else false := by
  rcases h with h | h
  · have hm : wc.Match e = wc.compareLevel e true := by
      unfold WhereClause.Match
      rw [h]
      rfl
    rw [hm, h]
    unfold WhereClause.compareLevel
    rw [ite_not]
    simp
  · have hm : wc.Match e = wc.compareLevel e false := by
      unfold WhereClause.Match
      rw [h]
      rfl
    rw [hm, h]
    unfold WhereClause.compareLevel
    rw [ite_not]
    simp

/-- C9, witness: `level>=error` matches a Fault-level entry (priority 4 ≥ 3)
and, with the unknown field `pid`, the same operator matches nothing. -/
theorem where_level_compare_witness :
    (WhereClause.mk "level" ">=" "error" none).Match
      (entryOf "com.ex" 1 "U" "Fault" "m") = true ∧
    (WhereClause.mk "process" ">=" "error" none).Match
      (entryOf "com.ex" 1 "U" "Fault" "m") = false :=
  ⟨(where_level_compare ⟨"level", ">=", "error", none⟩
      (entryOf "com.ex" 1 "U" "Fault" "m") (Or.inl rfl)).trans (by decide),
   (where_level_compare ⟨"process", ">=", "error", none⟩
      (entryOf "com.ex" 1 "U" "Fault" "m") (Or.inl rfl)).trans (by decide)⟩

end Xcw
